import Mathlib

/-!
Verification of the Mudae badge automation tool (`badges.py`).

The embedding models:
* `validate_input` — the sequence validator;
* `process_badges` — the sequence interpreter, as the list of transport
  events (outbound message dispatches and delay waits) it produces, paired
  with a flag recording whether every command-table lookup succeeded
  (a failed lookup raises `KeyError` in the source and aborts the run);
* `delete_presets` / `save_preset` — preset-store management, with the
  in-memory store as an association list and explicit flags recording
  whether the configuration file was rewritten and (for save) whether the
  overwrite prompt was shown.

Python's `str.isdigit` is modelled as the ASCII digit test `Char.isDigit`;
every character the claims mention is ASCII, where the two agree.
Console `print` calls are not modelled: they are not outbound dispatches.
-/

namespace Badges

/-- `REFUND_CHAR = "!"` from the source. -/
def REFUND_CHAR : Char := '!'

/-- The `COMMANDS` table: character → command text template. -/
def COMMANDS : List (Char × String) :=
  [(REFUND_CHAR, "kakerarefund {user_id}"),
   ('b', "bronze"),
   ('i', "silver"),
   ('g', "gold"),
   ('a', "sapphire"),
   ('r', "ruby"),
   ('e', "emerald")]

/-- `c in COMMANDS`: membership of a character among the table keys. -/
def validKey (c : Char) : Bool := (List.lookup c COMMANDS).isSome

/-- Python `str.find`: index of the first occurrence, `-1` when absent. -/
def strFind (t : Char) : List Char → Int
  | [] => -1
  | c :: cs =>
    if c = t then 0
    else
      let r := strFind t cs
      if r < 0 then -1 else r + 1

/-- `validate_input(string)`:
`string.find(REFUND_CHAR) <= 0 and all(c.isdigit() or c in COMMANDS for c in string)`. -/
def validate_input (s : String) : Bool :=
  decide (strFind REFUND_CHAR s.data ≤ 0) && s.data.all (fun c => c.isDigit || validKey c)

/-- An observable transport event of the interpreter: an outbound message
dispatch (`session.post` with the given content), or one `sleep(timeout)` wait. -/
inductive Event where
  | send : String → Event
  | wait : Event
deriving DecidableEq, Repr

/-- Python `str.format(user_id=u)` on the command templates: each occurrence
of the placeholder `"{user_id}"` is replaced by `u`; templates contain no
other replacement field. -/
def pyFormat (u : String) : List Char → List Char
  | '{' :: 'u' :: 's' :: 'e' :: 'r' :: '_' :: 'i' :: 'd' :: '}' :: rest =>
      u.data ++ pyFormat u rest
  | c :: cs => c :: pyFormat u cs
  | [] => []

/-- The confirmation token of a step: the source checks `seq[i]` AFTER a
consumed digit has advanced `i`, so `cur` is the digit when one was consumed. -/
def confirmToken (cur : Char) : String :=
  if cur = REFUND_CHAR then "confirm" else "y"

/-- The four transport events of one interpreter step:
dispatch `f"${command}".format(user_id=u)`, wait, dispatch the confirmation
token chosen from `cur` (the character at the step's final index), wait. -/
def mkStep (cmd : String) (cur : Char) (u : String) : List Event :=
  [Event.send ⟨pyFormat u ("$" ++ cmd).data⟩, Event.wait,
   Event.send (confirmToken cur), Event.wait]

/-- `process_badges`: the interpreter loop over the sequence. Returns the
events dispatched in order, and `true` iff every `COMMANDS[seq[i]]` lookup
succeeded (`false` models the `KeyError` aborting the run at that point). -/
def process_badges (u : String) : List Char → List Event × Bool
  | [] => ([], true)
  | [c] =>
    match List.lookup c COMMANDS with
    | none => ([], false)
    | some cmd => (mkStep cmd c u, true)
  | c :: d :: rest2 =>
    match List.lookup c COMMANDS with
    | none => ([], false)
    | some cmd =>
      if d.isDigit then
        let r := process_badges u rest2
        (mkStep (cmd ++ " " ++ d.toString) d u ++ r.1, r.2)
      else
        let r := process_badges u (d :: rest2)
        (mkStep cmd c u ++ r.1, r.2)

/-! ## Preset store management -/

/-- Python dict assignment `d[k] = v` on an association list: update in
place when the key exists, else append at the end. -/
def setKey (k v : String) : List (String × String) → List (String × String)
  | [] => [(k, v)]
  | (k', v') :: rest => if k' = k then (k, v) :: rest else (k', v') :: setKey k v rest

/-- Python `del d[k]` on an association list (dict keys are unique). -/
def delKey (k : String) (ps : List (String × String)) : List (String × String) :=
  ps.filter (fun p => p.1 ≠ k)

/-- Result of `delete_presets`: the in-memory store, the names reported as
not found, the returned boolean, and whether `config.to_file()` ran. -/
structure DeleteResult where
  presets : List (String × String)
  notFound : List String
  success : Bool
  fileWritten : Bool
deriving DecidableEq, Repr

/-- The `for preset in presets` loop of `delete_presets`: the accumulator
carries the store and the `not_found` list. -/
def deleteLoop (acc : List (String × String) × List String) :
    List String → List (String × String) × List String
  | [] => acc
  | n :: ns =>
    if (List.lookup n acc.1).isSome then deleteLoop (delKey n acc.1, acc.2) ns
    else deleteLoop (acc.1, acc.2 ++ [n]) ns

/-- `delete_presets(config, presets)`: delete each found name from the store,
collect the missing ones in order; write the file and return `True` only
when every name was found. -/
def delete_presets (ps : List (String × String)) (names : List String) : DeleteResult :=
  let r := deleteLoop (ps, []) names
  if r.2.isEmpty then ⟨r.1, r.2, true, true⟩ else ⟨r.1, r.2, false, false⟩

/-- Python `answer.strip()`: drop leading and trailing whitespace. -/
def pyStrip (s : List Char) : List Char :=
  ((s.dropWhile Char.isWhitespace).reverse.dropWhile Char.isWhitespace).reverse

/-- `input(prompt).strip().lower() not in ("y", "")`: the user declines the
overwrite. -/
def declinesOverwrite (answer : String) : Bool :=
  let a : String := ⟨(pyStrip answer.data).map Char.toLower⟩
  !(a == "y" || a == "")

/-- Result of `save_preset`: the in-memory store, whether the overwrite
prompt was shown, and whether `config.to_file()` ran. -/
structure SaveResult where
  presets : List (String × String)
  prompted : Bool
  fileWritten : Bool
deriving DecidableEq, Repr

/-- `save_preset(config, preset, seq)`, with the interactive answer passed
explicitly. The prompt fires only when `config.presets.get(preset)` is
truthy, i.e. present AND non-empty; declining returns before any mutation. -/
def save_preset (ps : List (String × String)) (preset seq answer : String) : SaveResult :=
  match List.lookup preset ps with
  | some existing =>
    if existing = "" then ⟨setKey preset seq ps, false, true⟩
    else if declinesOverwrite answer then ⟨ps, true, false⟩
    else ⟨setKey preset seq ps, true, true⟩
  | none => ⟨setKey preset seq ps, false, true⟩

/-- The digit at index `i` of `s` (if any) is not immediately preceded by a
command-table key: either it is leading (`i = 0`) or the previous character
is not a key. -/
def orphanDigitAt (s : List Char) (i : Nat) : Bool :=
  (s.get? i).any Char.isDigit &&
  (decide (i = 0) || (s.get? (i - 1)).all (fun p => !validKey p))

/-! ## Helper lemmas -/

theorem strFind_eq_neg_one_of_not_mem {t : Char} {l : List Char} (h : t ∉ l) :
    strFind t l = -1 := by
  induction l with
  | nil => rfl
  | cons c cs ih =>
    have hc : ¬ c = t := fun e => h (e ▸ List.mem_cons_self c cs)
    have hcs : t ∉ cs := fun m => h (List.mem_cons_of_mem c m)
    simp [strFind, hc, ih hcs]

theorem strFind_nonpos_of_only_head {t : Char} {l : List Char}
    (h : ∀ i, ∀ hi : i < l.length, l.get ⟨i, hi⟩ = t → i = 0) :
    strFind t l ≤ 0 := by
  cases l with
  | nil => simp [strFind]
  | cons c cs =>
    by_cases hc : c = t
    · simp [strFind, hc]
    · have hnm : t ∉ cs := by
        intro hm
        obtain ⟨⟨j, hj⟩, hget⟩ := List.mem_iff_get.mp hm
        have := h (j + 1) (by simpa using Nat.succ_lt_succ hj) (by simpa using hget)
        omega
      simp [strFind, hc, strFind_eq_neg_one_of_not_mem hnm]

theorem lookup_setKey_self (k v : String) (l : List (String × String)) :
    List.lookup k (setKey k v l) = some v := by
  induction l with
  | nil => simp [setKey, List.lookup]
  | cons p rest ih =>
    by_cases h : p.1 = k
    · simp [setKey, h, List.lookup]
    · have hb : (k == p.1) = false := by
        simp only [beq_eq_false_iff_ne, ne_eq]
        exact fun e => h e.symm
      simp [setKey, h, List.lookup, ih, hb]

/-! ## Claim theorems -/

/-- C1 (counterexample): the claim says `validate_input` returns false for
every string with the refund marker at an index other than 0, including
`"!!"`, which has the marker at index 1. The code accepts `"!!"`: `find`
only inspects the first occurrence, and `'!'` is a command-table key. -/
theorem c1_counterexample_double_marker :
    validate_input "!!" = true ∧ "!!".data.get? 1 = some REFUND_CHAR := by
  constructor <;> rfl

/-- C1 (amended): `validate_input` returns false exactly on the marker's
FIRST occurrence being at a positive index: for every string whose first
occurrence of the refund marker is at an index greater than 0,
`validate_input` returns false. -/
theorem c1_first_marker_occurrence_positive_rejected (s : String)
    (h : 0 < strFind REFUND_CHAR s.data) : validate_input s = false := by
  have hn : ¬ strFind REFUND_CHAR s.data ≤ 0 := by omega
  simp [validate_input, hn]

/-- C1 witness: `"b!"` has its first refund marker at index 1 and is
rejected. -/
theorem c1_first_marker_occurrence_positive_rejected_witness :
    0 < strFind REFUND_CHAR "b!".data ∧ validate_input "b!" = false :=
  ⟨by decide, c1_first_marker_occurrence_positive_rejected "b!" (by decide)⟩

/-- C2 (counterexample): the claim lists the dispatched texts as
`"bronze 2"`, `"y"`, …, but the interpreter dispatches
`f"${command}"` — every command message carries a leading `"$"`. -/
theorem c2_counterexample_missing_dollar :
    process_badges "U" "b2i2g2r4i4".data ≠
      ([Event.send "bronze 2", Event.wait, Event.send "y", Event.wait,
        Event.send "silver 2", Event.wait, Event.send "y", Event.wait,
        Event.send "gold 2", Event.wait, Event.send "y", Event.wait,
        Event.send "ruby 4", Event.wait, Event.send "y", Event.wait,
        Event.send "silver 4", Event.wait, Event.send "y", Event.wait], true) := by
  decide

/-- C2 (amended): interpreting `"b2i2g2r4i4"` with user id `"U"` dispatches,
in order, exactly the 10 outbound texts `"$bronze 2"`, `"y"`, `"$silver 2"`,
`"y"`, `"$gold 2"`, `"y"`, `"$ruby 4"`, `"y"`, `"$silver 4"`, `"y"`, each
dispatch followed by one delay wait, with no lookup failure. -/
theorem c2_full_sequence_trace :
    process_badges "U" "b2i2g2r4i4".data =
      ([Event.send "$bronze 2", Event.wait, Event.send "y", Event.wait,
        Event.send "$silver 2", Event.wait, Event.send "y", Event.wait,
        Event.send "$gold 2", Event.wait, Event.send "y", Event.wait,
        Event.send "$ruby 4", Event.wait, Event.send "y", Event.wait,
        Event.send "$silver 4", Event.wait, Event.send "y", Event.wait], true) := by
  rfl

/-- C4 (counterexample): the claim says strings with a leading or orphaned
digit are rejected, but `validate_input` accepts `"2b"` (leading digit) and
`"b22"` (orphaned second digit): it never checks digit positions. -/
theorem c4_counterexample_orphan_digit_accepted :
    validate_input "2b" = true ∧ validate_input "b22" = true ∧
    orphanDigitAt "2b".data 0 = true ∧ orphanDigitAt "b22".data 2 = true := by
  decide

/-- C4 (amended): the validator ignores digit positioning entirely: a string
containing a digit not immediately preceded by a command-table key is still
accepted, provided all its characters are digits or command keys and the
refund marker's first occurrence (if any) is at index 0. -/
theorem c4_validator_ignores_digit_position (s : String) (i : Nat)
    (_horphan : orphanDigitAt s.data i = true)
    (hfind : strFind REFUND_CHAR s.data ≤ 0)
    (hall : ∀ c ∈ s.data, (c.isDigit || validKey c) = true) :
    validate_input s = true := by
  simp [validate_input, hfind]
  intro c hc
  simpa using hall c hc

/-- C4 witness: `"2b"` has a leading digit and is accepted. -/
theorem c4_validator_ignores_digit_position_witness :
    orphanDigitAt "2b".data 0 = true ∧ strFind REFUND_CHAR "2b".data ≤ 0 ∧
    validate_input "2b" = true :=
  ⟨by decide, by decide,
    c4_validator_ignores_digit_position "2b" 0 (by decide) (by decide) (by decide)⟩

/-- C5 (counterexample): the claim lists the first dispatched text as
`"kakerarefund 42"`, but the interpreter dispatches `f"${command}"`, i.e.
`"$kakerarefund 42"`. -/
theorem c5_counterexample_missing_dollar :
    process_badges "42" "!".data ≠
      ([Event.send "kakerarefund 42", Event.wait,
        Event.send "confirm", Event.wait], true) := by
  decide

/-- C5 (amended): interpreting `"!"` with user id `"42"` dispatches exactly
2 outbound messages, in order `"$kakerarefund 42"` (user id substituted into
the refund template, with the `"$"` prefix) then `"confirm"`, each followed
by one delay wait. -/
theorem c5_refund_alone_trace :
    process_badges "42" "!".data =
      ([Event.send "$kakerarefund 42", Event.wait,
        Event.send "confirm", Event.wait], true) := by
  rfl

/-- C9: acceptance by `validate_input` does not make the interpreter's
command-table lookup total: the non-empty sequences `"2"` and `"b22"` are
accepted, yet running the interpreter on them fails — the digit `'2'` is
looked up in `COMMANDS` and is not a key (the source raises `KeyError`). -/
theorem c9_validator_acceptance_not_safe :
    validate_input "2" = true ∧ "2" ≠ "" ∧
    List.lookup '2' COMMANDS = none ∧ Char.isDigit '2' = true ∧
    (process_badges "U" "2".data).2 = false ∧
    validate_input "b22" = true ∧ (process_badges "U" "b22".data).2 = false := by
  decide

/-- C3 (counterexample): the claim says the second outbound message is
`"confirm"` iff the step's command character is the refund marker, also for
`"!2"`. But after consuming the digit the code re-reads `seq[i]`, now the
digit, so the refund step of `"!2"` gets `"y"`, not `"confirm"`. -/
theorem c3_counterexample_refund_digit_suffix :
    "!2".data.get? 0 = some REFUND_CHAR ∧
    process_badges "U" "!2".data =
      ([Event.send "$kakerarefund U 2", Event.wait,
        Event.send "y", Event.wait], true) ∧
    ("y" : String) ≠ "confirm" := by
  decide

/-- C3 (amended): the second outbound message of a step is chosen from the
character at the step's FINAL index: when a digit suffix was consumed it is
always `"y"` (a digit is never the refund marker), and when no digit was
consumed it is `"confirm"` iff the command character is the refund marker. -/
theorem c3_confirm_token_from_final_index :
    (∀ (u : String) (c : Char) (cmd : String) (d : Char) (rest2 : List Char),
        List.lookup c COMMANDS = some cmd → d.isDigit = true →
        (process_badges u (c :: d :: rest2)).1.get? 2 = some (Event.send "y"))
    ∧ (∀ (u : String) (c : Char) (cmd : String) (rest : List Char),
        List.lookup c COMMANDS = some cmd →
        rest.head?.all (fun d => !d.isDigit) = true →
        (process_badges u (c :: rest)).1.get? 2 = some (Event.send (confirmToken c))) := by
  constructor
  · intro u c cmd d rest2 hc hd
    have hdne : ¬ d = REFUND_CHAR := by
      intro he
      rw [he] at hd
      exact absurd hd (by decide)
    simp [process_badges, hc, hd, mkStep, confirmToken, hdne]
  · intro u c cmd rest hc hnd
    cases rest with
    | nil => simp [process_badges, hc, mkStep]
    | cons d rest2 =>
      have hd : d.isDigit = false := by simpa using hnd
      simp [process_badges, hc, hd, mkStep]

/-- C3 witness: for `"!2"` the second message is `"y"`; for `"!"` it is
`confirmToken '!' = "confirm"`. -/
theorem c3_confirm_token_from_final_index_witness :
    (process_badges "U" ('!' :: '2' :: [])).1.get? 2 = some (Event.send "y") ∧
    (process_badges "U" ('!' :: [])).1.get? 2 = some (Event.send (confirmToken '!')) :=
  ⟨c3_confirm_token_from_final_index.1 "U" '!' "kakerarefund {user_id}" '2' [] rfl rfl,
   c3_confirm_token_from_final_index.2 "U" '!' "kakerarefund {user_id}" [] rfl rfl⟩

/-- C6: `delete_presets` persists all-or-nothing — the file is written iff
no name was missing, and the returned boolean equals the write flag; in the
concrete case of deleting `["a", "b"]` from a store holding only `"a"`, the
store loses `"a"`, `"b"` is reported not found, the call returns failure and
the file is not rewritten. -/
theorem c6_delete_all_or_nothing :
    (∀ (ps : List (String × String)) (names : List String),
        (delete_presets ps names).fileWritten = (delete_presets ps names).notFound.isEmpty ∧
        (delete_presets ps names).success = (delete_presets ps names).fileWritten)
    ∧ (∀ v : String,
        delete_presets [("a", v)] ["a", "b"] = ⟨[], ["b"], false, false⟩) := by
  constructor
  · intro ps names
    unfold delete_presets
    cases h : (deleteLoop (ps, []) names).2.isEmpty <;> simp [h]
  · intro v
    rfl

/-- C7: when the preset exists with a non-empty stored sequence and the
overwrite prompt is declined, `save_preset` leaves the whole store unchanged
and performs no file write. -/
theorem c7_decline_overwrite_frame (ps : List (String × String))
    (preset seq answer existing : String)
    (hl : List.lookup preset ps = some existing) (hne : existing ≠ "")
    (hd : declinesOverwrite answer = true) :
    save_preset ps preset seq answer = ⟨ps, true, false⟩ := by
  simp [save_preset, hl, hne, hd]

/-- C7 witness: declining with answer `"n"` on an existing preset `"a"`
changes nothing and writes nothing. -/
theorem c7_decline_overwrite_frame_witness :
    List.lookup "a" [("a", "x")] = some "x" ∧ ("x" : String) ≠ "" ∧
    declinesOverwrite "n" = true ∧
    save_preset [("a", "x")] "a" "z" "n" = ⟨[("a", "x")], true, false⟩ :=
  ⟨rfl, by decide, by decide,
    c7_decline_overwrite_frame [("a", "x")] "a" "z" "n" "x" rfl (by decide) (by decide)⟩

/-- C8: every string (the empty one included) whose characters are all
digits or command-table keys and whose refund marker, if present at all,
occurs only at index 0, is accepted by `validate_input`. -/
theorem c8_valid_alphabet_accepted (s : String)
    (hall : ∀ c ∈ s.data, (c.isDigit || validKey c) = true)
    (hmark : ∀ i, ∀ hi : i < s.data.length, s.data.get ⟨i, hi⟩ = REFUND_CHAR → i = 0) :
    validate_input s = true := by
  have hf : strFind REFUND_CHAR s.data ≤ 0 := strFind_nonpos_of_only_head hmark
  simp [validate_input, hf]
  intro c hc
  simpa using hall c hc

/-- C8 witness: `"!b2"` (marker at index 0 only) and `""` are accepted. -/
theorem c8_valid_alphabet_accepted_witness :
    validate_input "!b2" = true ∧ validate_input "" = true :=
  ⟨c8_valid_alphabet_accepted "!b2" (by decide) (by decide),
   c8_valid_alphabet_accepted "" (by decide) (by decide)⟩

/-- C10: `save_preset` prompts only when the existing stored sequence is
truthy (present and non-empty); on a preset stored as the empty string it
silently overwrites and writes the file without prompting. -/
theorem c10_prompt_only_for_nonempty_existing :
    (∀ (ps : List (String × String)) (preset seq answer : String),
        (save_preset ps preset seq answer).prompted = true →
        ∃ e, List.lookup preset ps = some e ∧ e ≠ "")
    ∧ (∀ (ps : List (String × String)) (preset seq answer : String),
        List.lookup preset ps = some "" →
        (save_preset ps preset seq answer).prompted = false ∧
        (save_preset ps preset seq answer).fileWritten = true ∧
        List.lookup preset (save_preset ps preset seq answer).presets = some seq) := by
  constructor
  · intro ps preset seq answer hp
    unfold save_preset at hp
    cases hl : List.lookup preset ps with
    | none => rw [hl] at hp; simp at hp
    | some e =>
      rw [hl] at hp
      by_cases he : e = ""
      · simp [he] at hp
      · exact ⟨e, rfl, he⟩
  · intro ps preset seq answer hl
    simp [save_preset, hl, lookup_setKey_self]

/-- C10 witness: saving over preset `"a"` stored as `""` overwrites without
prompting and writes the file. -/
theorem c10_prompt_only_for_nonempty_existing_witness :
    (save_preset [("a", "")] "a" "xy" "n").prompted = false ∧
    (save_preset [("a", "")] "a" "xy" "n").fileWritten = true ∧
    List.lookup "a" (save_preset [("a", "")] "a" "xy" "n").presets = some "xy" :=
  c10_prompt_only_for_nonempty_existing.2 [("a", "")] "a" "xy" "n" rfl

end Badges
